import Mathlib

/-!
Verification of the oai-to-circuit gateway against its specification.

The Python sources are shallowly embedded as Lean functions:

* `src/oai_to_circuit/quota.py`  — the Quota Store (`QuotaManager`): quota
  policy resolution, request/token limit checks, and the atomic usage upsert.
  The SQLite `usage` table is modelled as a list of rows with a first-match
  lookup; the `ON CONFLICT (subkey, model) DO UPDATE` upsert becomes the
  standard association-list upsert (update the unique matching row, else
  append).
* `src/oai_to_circuit/oauth.py`  — the Token Cache (`get_access_token`).
  Network I/O is an oracle argument: the outcome of the client-credentials
  POST is passed in as a value.
* `src/oai_to_circuit/app.py`    — the SSE relay (`parse_sse_stream`), the
  streaming wrapper (`stream_with_usage_tracking`) and the request pipeline
  (`chat_completion`).  JSON payloads are modelled by an inductive `JValue`;
  `json.loads` is an oracle function `String → Option JValue`.

Machine integers are `Int`/`Nat`; Python truthiness is made explicit where
the source relies on it.
-/

set_option maxHeartbeats 1000000

namespace OaiBridge

/-! ## JSON values

A minimal model of the JSON values handled by `json.loads` in the source.
Python floats do not occur in the claims and are omitted. -/

inductive JValue where
  | null
  | bool (b : Bool)
  | num (n : Int)
  | str (s : String)
  | arr (elems : List JValue)
  | obj (fields : List (String × JValue))
deriving Repr

/-- Dictionary lookup (`d[k]` / `d.get(k)`); Python dict keys are unique, so
first match is the match. -/
def jlookup (fields : List (String × JValue)) (k : String) : Option JValue :=
  fields.lookup k

/-- Python `s.startswith(p)`, computed on the character list so that closed
instances evaluate. -/
def pyStartsWith (s p : String) : Bool :=
  p.data.isPrefixOf s.data

/-- Python `s[n:]`. -/
def pyDrop (s : String) (n : Nat) : String :=
  String.mk (s.data.drop n)

/-- Python `s.strip()`: whitespace removed from both ends. -/
def pyStrip (s : String) : String :=
  String.mk (((s.data.dropWhile Char.isWhitespace).reverse.dropWhile
    Char.isWhitespace).reverse)

/-- Python `s.lower()`. -/
def pyLower (s : String) : String :=
  String.mk (s.data.map Char.toLower)

/-- Python `int(v)` on a JSON scalar: ints pass through, booleans coerce to
0/1, numeric strings parse (after stripping whitespace), everything else
raises (modelled as `none`). -/
def pyInt : JValue → Option Int
  | .num n => some n
  | .bool b => some (if b then 1 else 0)
  | .str s => (pyStrip s).toInt?
  | _ => none

/-- Python truthiness of a JSON value (`bool(v)`). -/
def pyFalsy : JValue → Bool
  | .null => true
  | .bool b => !b
  | .num n => n == 0
  | .str s => s == ""
  | .arr elems => elems.isEmpty
  | .obj fields => fields.isEmpty

/-- Python truthiness of an optional string (`if s:`). -/
def pytruthy : Option String → Bool
  | none => false
  | some s => s != ""

/-- Substring test, for the `"..." in ct` content-type checks in `app.py`. -/
def strContains (s sub : String) : Bool :=
  (List.range (s.length + 1)).any fun i => sub.data.isPrefixOf (s.data.drop i)

/-! ## Quota Store — `src/oai_to_circuit/quota.py` -/

/-- One per-model limit dict from the quota policy.  A field is `none` when
the key is absent from the JSON dict, `some none` when present with value
`null`, and `some (some n)` when present with a number; `dict.update`
overrides key-by-key, so presence matters independently of the value. -/
structure LimitEntry where
  requests : Option (Option Int) := none
  total_tokens : Option (Option Int) := none
deriving Repr, DecidableEq

/-- The quota policy: subkey → model name → limit entry, as nested
association lists (the JSON dicts loaded by `load_quotas_from_env_or_file`). -/
abbrev Quotas := List (String × List (String × LimitEntry))

/-- `QuotaManager._get_limits`: wildcard `*` defaults overridden key-by-key
by the model-specific entry (`combined = dict(wildcard); combined.update(model)`). -/
def getLimits (quotas : Quotas) (subkey model : String) : LimitEntry :=
  let subq := (quotas.lookup subkey).getD []
  let modelLimits := (subq.lookup model).getD {}
  let wildcardLimits := (subq.lookup "*").getD {}
  { requests := modelLimits.requests <|> wildcardLimits.requests
    total_tokens := modelLimits.total_tokens <|> wildcardLimits.total_tokens }

/-- A row of the SQLite `usage` table. -/
structure UsageRow where
  subkey : String
  model : String
  requests : Int
  prompt_tokens : Int
  completion_tokens : Int
  total_tokens : Int
deriving Repr, DecidableEq

/-- The `usage` table as a list of rows; `PRIMARY KEY (subkey, model)`
uniqueness is the invariant `keyNodup` below. -/
abbrev UsageDb := List UsageRow

/-- `QuotaManager._get_usage`: the (unique) row for `(subkey, model)`, or all
zeros when absent (`if not row: return 0, 0, 0, 0`). -/
def getUsage : UsageDb → String → String → Int × Int × Int × Int
  | [], _, _ => (0, 0, 0, 0)
  | r :: rest, subkey, model =>
    if r.subkey == subkey && r.model == model then
      (r.requests, r.prompt_tokens, r.completion_tokens, r.total_tokens)
    else getUsage rest subkey model

/-- Python `limits.get(k)`: `None` both when the key is absent and when it
is present with value `null`. -/
def limVal : Option (Option Int) → Option Int
  | none => none
  | some v => v

/-- `QuotaManager.is_request_allowed`: no configured `requests` limit (key
absent or null) means always allowed, otherwise strictly-less-than. -/
def is_request_allowed (quotas : Quotas) (db : UsageDb) (subkey model : String) : Bool :=
  match limVal (getLimits quotas subkey model).requests with
  | none => true
  | some requests_limit => decide ((getUsage db subkey model).1 < requests_limit)

/-- `QuotaManager.will_exceed_tokens`: false when no `total_tokens` limit is
configured, else `total_used + max(0, next_total_tokens) > limit`. -/
def will_exceed_tokens (quotas : Quotas) (db : UsageDb) (subkey model : String)
    (next_total_tokens : Int) : Bool :=
  match limVal (getLimits quotas subkey model).total_tokens with
  | none => false
  | some total_limit =>
      decide ((getUsage db subkey model).2.2.2 + max 0 next_total_tokens > total_limit)

/-- `QuotaManager.record_usage`: the SQL upsert
`INSERT ... ON CONFLICT(subkey, model) DO UPDATE SET requests = requests + excluded.requests, ...`
on the association list: add the clamped deltas (`max(0, ·)`) to the unique
matching row, or append a fresh row with the clamped values. -/
def record_usage (subkey model : String)
    (request_inc prompt_tokens completion_tokens total_tokens : Int) :
    UsageDb → UsageDb
  | [] => [⟨subkey, model, max 0 request_inc, max 0 prompt_tokens,
           max 0 completion_tokens, max 0 total_tokens⟩]
  | r :: rest =>
    if r.subkey == subkey && r.model == model then
      { r with requests := r.requests + max 0 request_inc
               prompt_tokens := r.prompt_tokens + max 0 prompt_tokens
               completion_tokens := r.completion_tokens + max 0 completion_tokens
               total_tokens := r.total_tokens + max 0 total_tokens } :: rest
    else
      r :: record_usage subkey model request_inc prompt_tokens completion_tokens total_tokens rest

/-- `n` sequential `record_usage` calls with a request delta of 1 and no
token deltas (the shape the pipeline issues once per completed call). -/
def recordN (subkey model : String) : Nat → UsageDb → UsageDb
  | 0, db => db
  | n + 1, db => recordN subkey model n (record_usage subkey model 1 0 0 0 db)

/-- Storage invariant: no two rows share the `(subkey, model)` primary key. -/
def keyNodup (db : UsageDb) : Prop :=
  db.Pairwise fun r s => ¬(r.subkey = s.subkey ∧ r.model = s.model)

/-- All counters in the table are non-negative (true of every table reachable
through `record_usage` from the freshly created schema). -/
def dbNonneg (db : UsageDb) : Prop :=
  ∀ r ∈ db, 0 ≤ r.requests ∧ 0 ≤ r.prompt_tokens ∧
    0 ≤ r.completion_tokens ∧ 0 ≤ r.total_tokens

/-! ## Token Cache — `src/oai_to_circuit/oauth.py` -/

/-- The in-memory token cache (`@dataclass TokenCache`); time is modelled as
`Int` seconds — only order and addition of times matter. -/
structure TokenCache where
  access_token : Option String := none
  expires_at : Int := 0
deriving Repr, DecidableEq

/-- Oracle for the token-endpoint POST in `get_access_token`: the HTTP status,
the raw body text, and the parsed JSON fields.  `access_token = none` models a
body without an `access_token` key (`j["access_token"]` raises);
`expires_in = none` models an absent `expires_in` key. -/
structure TokenGrant where
  status : Nat
  body : String
  access_token : Option String := none
  expires_in : Option Int := none
deriving Repr, DecidableEq

/-- Errors raised out of `get_access_token`: the 500 `HTTPException` for
missing credentials, the 502 `HTTPException` carrying the token endpoint's
response body, the `KeyError` for a body without `access_token`, and any
transport exception raised by the POST itself. -/
inductive TokenError where
  | configError (missing : List String)
  | statusError (body : String)
  | keyError
  | transportError
deriving Repr, DecidableEq

inductive TokenResult where
  | ok (token : String)
  | error (e : TokenError)
deriving Repr, DecidableEq

/-- Return value, cache state after the call, and whether the token endpoint
was contacted. -/
structure TokenOutcome where
  result : TokenResult
  cache : TokenCache
  networkCalled : Bool
deriving Repr, DecidableEq

/-- `get_access_token` (`oauth.py` lines 16–68).  The cache-hit test is the
source's `if cache.access_token and now < cache.expires_at - 60`; the
credential check builds the `missing` list exactly as the source does, and
the network POST happens only after that check passes.  `grant = none`
models the POST raising a transport exception (re-raised, cache unchanged). -/
def get_access_token (now : Int) (client_id client_secret : String)
    (grant : Option TokenGrant) (cache : TokenCache) : TokenOutcome :=
  if pytruthy cache.access_token && decide (now < cache.expires_at - 60) then
    { result := .ok (cache.access_token.getD ""), cache := cache, networkCalled := false }
  else
    let missing : List String :=
      (if client_id = "" then ["CIRCUIT_CLIENT_ID"] else []) ++
      (if client_secret = "" then ["CIRCUIT_CLIENT_SECRET"] else [])
    if missing ≠ [] then
      { result := .error (.configError missing), cache := cache, networkCalled := false }
    else
      match grant with
      | none => { result := .error .transportError, cache := cache, networkCalled := true }
      | some g =>
        if g.status ≠ 200 then
          { result := .error (.statusError g.body), cache := cache, networkCalled := true }
        else
          match g.access_token with
          | none => { result := .error .keyError, cache := cache, networkCalled := true }
          | some tok =>
            { result := .ok tok
              cache := { access_token := some tok, expires_at := now + g.expires_in.getD 3600 }
              networkCalled := true }

/-! ## Stream Relay — `parse_sse_stream` in `src/oai_to_circuit/app.py` -/

/-- Captured token usage (the dict built at `app.py` lines 69–73). -/
structure Usage where
  prompt_tokens : Int
  completion_tokens : Int
  total_tokens : Int
deriving Repr, DecidableEq

/-- The usage-capture attempt on a parsed SSE data payload (`app.py` lines
66–73): if the payload is a dict with a `usage` dict, convert the three
counts with `int(usage.get(k, 0))`; any conversion failure raises inside the
`try`, so the previous captured value is kept.  The dict literal is assigned
atomically, so a partial success also keeps the previous value. -/
def extractUsageSSE (j : JValue) (current : Option Usage) : Option Usage :=
  match j with
  | .obj fields =>
    match jlookup fields "usage" with
    | some (.obj ufields) =>
      match pyInt ((jlookup ufields "prompt_tokens").getD (.num 0)),
            pyInt ((jlookup ufields "completion_tokens").getD (.num 0)),
            pyInt ((jlookup ufields "total_tokens").getD (.num 0)) with
      | some p, some c, some t => some ⟨p, c, t⟩
      | _, _, _ => current
    | _ => current
  | _ => current

/-- The `usage_data` state transition for one SSE line: non-data lines and
the `[DONE]` marker leave it unchanged; other data lines run `json.loads`
(the `parse` oracle) and the capture attempt, a parse failure being ignored. -/
def sseStep (parse : String → Option JValue) (usage_data : Option Usage)
    (line : String) : Option Usage :=
  if pyStartsWith line "data: " then
    let data_content := pyDrop line 6
    if pyStrip data_content = "[DONE]" then usage_data
    else
      match parse data_content with
      | some j => extractUsageSSE j usage_data
      | none => usage_data
  else usage_data

/-- The `usage_data` state after a whole stream. -/
def sseFinal (parse : String → Option JValue) : List String → Option Usage → Option Usage
  | [], usage_data => usage_data
  | line :: rest, usage_data => sseFinal parse rest (sseStep parse usage_data line)

/-- `parse_sse_stream` (`app.py` lines 28–87) as the list of yielded
`(chunk, usage)` pairs: every line is forwarded as `line + "\n"`; a `[DONE]`
data line is yielded together with the current captured usage; after the
last line, `("", usage)` is yielded iff the captured dict is truthy
(`if usage_data:`). -/
def parse_sse_stream (parse : String → Option JValue) :
    List String → Option Usage → List (String × Option Usage)
  | [], usage_data => if usage_data.isSome then [("", usage_data)] else []
  | line :: rest, usage_data =>
    if pyStartsWith line "data: " then
      if pyStrip (pyDrop line 6) = "[DONE]" then
        (line ++ "\n", usage_data) :: parse_sse_stream parse rest usage_data
      else
        (line ++ "\n", none) :: parse_sse_stream parse rest (sseStep parse usage_data line)
    else
      (line ++ "\n", none) :: parse_sse_stream parse rest usage_data

/-- The `collected_usage` fold in `stream_with_usage_tracking`
(`if usage: collected_usage = usage`). -/
def collectUsage (outputs : List (String × Option Usage)) : Option Usage :=
  outputs.foldl (fun acc p => match p.2 with | some w => some w | none => acc) none

/-- A `QuotaManager.record_usage` invocation, as observed by the quota store. -/
structure RecordCall where
  subkey : String
  model : String
  request_inc : Int
  prompt_tokens : Int
  completion_tokens : Int
  total_tokens : Int
deriving Repr, DecidableEq

/-- `stream_with_usage_tracking` (`app.py` lines 289–356): forward every
non-empty chunk (`if chunk_bytes:`), fold the yielded usage values into
`collected_usage`, and after the stream completes record usage only when
`caller_subkey and quota_manager and collected_usage` is truthy — otherwise
only a warning is logged and nothing is recorded. -/
def stream_with_usage_tracking (parse : String → Option JValue)
    (caller_subkey : Option String) (quotaActive : Bool) (model : String)
    (lines : List String) (db : UsageDb) : List String × List RecordCall × UsageDb :=
  let outputs := parse_sse_stream parse lines none
  let chunks := (outputs.map Prod.fst).filter (fun c => c != "")
  let collected_usage := collectUsage outputs
  match collected_usage with
  | some u =>
    if pytruthy caller_subkey && quotaActive then
      let k := caller_subkey.getD ""
      (chunks,
       [⟨k, model, 1, u.prompt_tokens, u.completion_tokens, u.total_tokens⟩],
       record_usage k model 1 u.prompt_tokens u.completion_tokens u.total_tokens db)
    else (chunks, [], db)
  | none => (chunks, [], db)

/-! ## Request Pipeline — `chat_completion` in `src/oai_to_circuit/app.py` -/

/-- Key lifecycle states from the `key_lifecycle` table (`rotate_key.py`). -/
inductive LifecycleStatus where
  | active
  | revoked
  | replaced
deriving Repr, DecidableEq

/-- Modelled from the spec: `QuotaManager.is_subkey_authorized` is called at
`app.py` line 178 but its definition is not among the sources (only its
callers and its tests are).  Per §4.2 of the spec it returns false if the
subkey has no entry in the Quota Policy at all; if present but with an
explicit lifecycle state of `revoked` or `replaced`, also false; otherwise
true, absence of any lifecycle record defaulting to active.  This agrees
with `tests/test_key_rotation.py`. -/
def is_subkey_authorized (quotas : Quotas)
    (lifecycle : String → Option LifecycleStatus) (subkey : String) : Bool :=
  match quotas.lookup subkey with
  | none => false
  | some _ =>
    match lifecycle subkey with
    | some .revoked => false
    | some .replaced => false
    | _ => true

/-- `SplunkHEC.send_usage_event` / `send_error_event`
(`splunk_hec.py` lines 69–346): the outcome of the HEC POST. -/
inductive HecOutcome where
  | ok200
  | badStatus (code : Nat)
  | timeout
  | connectError
  | httpError
  | otherError
deriving Repr, DecidableEq

/-- `SplunkHEC.send_usage_event`: a disabled client returns false; every
failure path (non-200 status, timeout, connect error, HTTP error, any other
exception) is caught inside the method and returns false — the method is
total and never raises into the pipeline. -/
def send_usage_event (enabled : Bool) (outcome : HecOutcome) : Bool :=
  if !enabled then false
  else
    match outcome with
    | .ok200 => true
    | _ => false

/-- The upstream POST failing (`app.py` lines 452–460): a timeout maps to
504, any other transport exception to 502. -/
inductive UpstreamFailure where
  | timeout
  | transport
deriving Repr, DecidableEq

/-- A completed upstream response.  `bodyJson` is the oracle for `r.json()`
on the buffered path (`none` = the parse raises); `streamLines` are the
lines of the re-dispatched stream on the streaming path. -/
structure UpstreamResponse where
  status : Nat
  contentType : String
  content : String
  bodyJson : Option JValue := none
  streamLines : List String := []

inductive UpstreamOutcome where
  | fail (f : UpstreamFailure)
  | ok (r : UpstreamResponse)

/-- Token-usage extraction on the buffered path (`app.py` lines 371–394).
The three assignments run in order inside one `try`: a failure at any
`int(...)` keeps the defaults of the still-unassigned variables while the
already-assigned ones persist.  `total_tokens` uses
`int(usage.get("total_tokens") or (prompt_tokens + completion_tokens))`. -/
def extractBuffered (ct : String) (hasContent : Bool) (bodyJson : Option JValue) :
    Int × Int × Int :=
  if strContains ct "application/json" && hasContent then
    match bodyJson with
    | none => (0, 0, 0)
    | some payload =>
      match payload with
      | .obj fields =>
        match jlookup fields "usage" with
        | some (.obj ufields) =>
          let pv := (jlookup ufields "prompt_tokens").getD .null
          match (if pyFalsy pv then some 0 else pyInt pv) with
          | none => (0, 0, 0)
          | some p =>
            let cv := (jlookup ufields "completion_tokens").getD .null
            match (if pyFalsy cv then some 0 else pyInt cv) with
            | none => (p, 0, 0)
            | some c =>
              let tv := (jlookup ufields "total_tokens").getD .null
              if pyFalsy tv then (p, c, p + c)
              else
                match pyInt tv with
                | none => (p, c, 0)
                | some t => (p, c, t)
        | _ => (0, 0, 0)
      | _ => (0, 0, 0)
  else (0, 0, 0)

/-- Everything `chat_completion` consumes: the parsed request, configuration,
quota state, and oracles for every external effect. -/
structure PipelineEnv where
  bodyParses : Bool
  model : Option String
  callerSubkey : Option String
  requireSubkey : Bool
  quotaActive : Bool
  hecActive : Bool
  quotas : Quotas
  lifecycle : String → Option LifecycleStatus
  db : UsageDb
  tokenOk : Bool
  upstream : UpstreamOutcome
  sseParse : String → Option JValue
  recordFails : Bool
  hecOutcome : HecOutcome

/-- What the client receives. -/
inductive ResponseBody where
  | error (detail : String)
  | buffered (content : String)
  | streamed (chunks : List String)

/-- The observable outcome of one pipeline run: HTTP status and body,
whether the upstream was dispatched, whether `is_subkey_authorized` was
consulted, the `record_usage` calls issued, the quota table afterwards, and
the `send_error_event` error types emitted. -/
structure PipelineResult where
  status : Nat
  body : ResponseBody
  upstreamCalled : Bool
  authChecked : Bool
  recordCalls : List RecordCall
  db : UsageDb
  errorEvents : List String

/-- `chat_completion` (`app.py` lines 144–460), one inbound request.
Side effects that cannot influence the observable outcome (logging, the
`user`-field appkey injection, cost estimation, usage-event telemetry) are
omitted from the result.  `recordFails` is the oracle for `record_usage`
raising (for example `sqlite3.OperationalError`); on the buffered path that
exception is caught by the generic handler and becomes a 502, while on the
streaming path it is raised only after every chunk has been yielded, so the
relayed stream and status are unaffected. -/
def chat_completion (env : PipelineEnv) : PipelineResult :=
  if !env.bodyParses then
    ⟨400, .error "Invalid JSON in request body", false, false, [], env.db, []⟩
  else if !(pytruthy env.model) then
    ⟨400, .error "Model parameter required", false, false, [], env.db, []⟩
  else
    let model := env.model.getD ""
    let subkeyOk := pytruthy env.callerSubkey
    let subkey := env.callerSubkey.getD ""
    if env.requireSubkey && !subkeyOk then
      ⟨401, .error "Subkey required.", false, false, [], env.db, []⟩
    else if subkeyOk && env.quotaActive &&
        !(is_subkey_authorized env.quotas env.lifecycle subkey) then
      ⟨403, .error "Unauthorized: Subkey not recognized.", false, true, [], env.db,
       if env.hecActive then ["unauthorized_subkey"] else []⟩
    else if subkeyOk && env.quotaActive &&
        !(is_request_allowed env.quotas env.db subkey model) then
      ⟨429, .error "Quota exceeded for this subkey and model (requests)", false, true, [],
       env.db, if env.hecActive then ["quota_exceeded"] else []⟩
    else if !env.tokenOk then
      ⟨502, .error "Failed to authenticate with Circuit API", false,
       subkeyOk && env.quotaActive, [], env.db, []⟩
    else
      match env.upstream with
      | .fail .timeout =>
        ⟨504, .error "Gateway timeout - Circuit API took too long to respond", true,
         subkeyOk && env.quotaActive, [], env.db, []⟩
      | .fail .transport =>
        ⟨502, .error "Gateway error: unexpected error calling Circuit API", true,
         subkeyOk && env.quotaActive, [], env.db, []⟩
      | .ok r =>
        let ct := pyLower r.contentType
        if strContains ct "text/event-stream" || strContains ct "stream" then
          let relay := stream_with_usage_tracking env.sseParse env.callerSubkey
            env.quotaActive model r.streamLines env.db
          ⟨r.status, .streamed relay.1, true, subkeyOk && env.quotaActive,
           relay.2.1, relay.2.2, []⟩
        else
          if subkeyOk && env.quotaActive then
            let usage := extractBuffered ct (r.content != "") r.bodyJson
            if env.recordFails then
              ⟨502, .error "Gateway error: record_usage raised", true, true, [], env.db, []⟩
            else
              ⟨r.status, .buffered r.content, true, true,
               [⟨subkey, model, 1, usage.1, usage.2.1, usage.2.2⟩],
               record_usage subkey model 1 usage.1 usage.2.1 usage.2.2 env.db, []⟩
          else
            ⟨r.status, .buffered r.content, true, false, [], env.db, []⟩

/-! ## Supporting lemmas about the quota store -/

theorem keyMatch_eq (r : UsageRow) (s m : String) :
    (r.subkey == s && r.model == m) = decide (r.subkey = s ∧ r.model = m) := by
  by_cases h1 : r.subkey = s <;> by_cases h2 : r.model = m <;> simp [h1, h2]

theorem getUsage_record_same (subkey model : String) (a b c d : Int) (db : UsageDb) :
    getUsage (record_usage subkey model a b c d db) subkey model =
      ((getUsage db subkey model).1 + max 0 a,
       (getUsage db subkey model).2.1 + max 0 b,
       (getUsage db subkey model).2.2.1 + max 0 c,
       (getUsage db subkey model).2.2.2 + max 0 d) := by
  induction db with
  | nil => simp [record_usage, getUsage]
  | cons r rest ih =>
    by_cases h : (r.subkey == subkey && r.model == model) = true
    · simp [record_usage, getUsage, h]
    · simp [record_usage, getUsage, h, ih]

theorem getUsage_record_other (subkey model s' m' : String) (a b c d : Int) (db : UsageDb)
    (h : ¬(subkey = s' ∧ model = m')) :
    getUsage (record_usage subkey model a b c d db) s' m' = getUsage db s' m' := by
  induction db with
  | nil => simp [record_usage, getUsage, keyMatch_eq, h]
  | cons r rest ih =>
    by_cases hk : (r.subkey == subkey && r.model == model) = true
    · have hkey : r.subkey = subkey ∧ r.model = model := by
        simpa [keyMatch_eq] using hk
      have hne : ¬(r.subkey = s' ∧ r.model = m') := by
        intro hc
        exact h ⟨hkey.1 ▸ hc.1, hkey.2 ▸ hc.2⟩
      simp [record_usage, getUsage, hk, keyMatch_eq, hne]
    · by_cases hr : (r.subkey == s' && r.model == m') = true
      · simp [record_usage, getUsage, hk, hr]
      · simp [record_usage, getUsage, hk, hr, ih]

theorem mem_record_usage (x : UsageRow) (subkey model : String) (a b c d : Int)
    (db : UsageDb) (hx : x ∈ record_usage subkey model a b c d db) :
    (x.subkey = subkey ∧ x.model = model) ∨
      ∃ y ∈ db, x.subkey = y.subkey ∧ x.model = y.model := by
  induction db with
  | nil =>
    simp only [record_usage, List.mem_singleton] at hx
    subst hx
    exact Or.inl ⟨rfl, rfl⟩
  | cons r rest ih =>
    by_cases hk : (r.subkey == subkey && r.model == model) = true
    · rw [record_usage, if_pos hk] at hx
      rcases List.mem_cons.mp hx with hx | hx
      · subst hx
        exact Or.inr ⟨r, List.mem_cons_self _ _, rfl, rfl⟩
      · exact Or.inr ⟨x, List.mem_cons_of_mem _ hx, rfl, rfl⟩
    · rw [record_usage, if_neg hk] at hx
      rcases List.mem_cons.mp hx with hx | hx
      · subst hx
        exact Or.inr ⟨x, List.mem_cons_self _ _, rfl, rfl⟩
      · rcases ih hx with h1 | ⟨y, hy, h2⟩
        · exact Or.inl h1
        · exact Or.inr ⟨y, List.mem_cons_of_mem _ hy, h2⟩

theorem keyNodup_record_usage (subkey model : String) (a b c d : Int) (db : UsageDb)
    (hnd : keyNodup db) :
    keyNodup (record_usage subkey model a b c d db) := by
  induction db with
  | nil => simp [record_usage, keyNodup]
  | cons r rest ih =>
    rcases List.pairwise_cons.mp hnd with ⟨hr, hrest⟩
    by_cases hk : (r.subkey == subkey && r.model == model) = true
    · rw [record_usage, if_pos hk]
      exact List.pairwise_cons.mpr ⟨fun y hy => hr y hy, hrest⟩
    · have hkey : ¬(r.subkey = subkey ∧ r.model = model) := by
        simpa [keyMatch_eq] using hk
      rw [record_usage, if_neg hk]
      refine List.pairwise_cons.mpr ⟨fun y hy => ?_, ih hrest⟩
      rcases mem_record_usage y subkey model a b c d rest hy with h1 | ⟨z, hz, h2⟩
      · intro hc
        exact hkey ⟨hc.1.trans h1.1, hc.2.trans h1.2⟩
      · intro hc
        exact hr z hz ⟨hc.1.trans h2.1, hc.2.trans h2.2⟩

theorem getUsage_nonneg (db : UsageDb) (hdb : dbNonneg db) (s m : String) :
    0 ≤ (getUsage db s m).1 ∧ 0 ≤ (getUsage db s m).2.1 ∧
      0 ≤ (getUsage db s m).2.2.1 ∧ 0 ≤ (getUsage db s m).2.2.2 := by
  induction db with
  | nil => simp [getUsage]
  | cons r rest ih =>
    have hr := hdb r (List.mem_cons_self _ _)
    have hrest : dbNonneg rest := fun y hy => hdb y (List.mem_cons_of_mem _ hy)
    by_cases h : (r.subkey == s && r.model == m) = true
    · simpa [getUsage, h] using hr
    · simpa [getUsage, h] using ih hrest

theorem getUsage_record_mono (subkey model : String) (a b c d : Int) (db : UsageDb)
    (s' m' : String) :
    (getUsage db s' m').1 ≤ (getUsage (record_usage subkey model a b c d db) s' m').1 ∧
    (getUsage db s' m').2.1 ≤ (getUsage (record_usage subkey model a b c d db) s' m').2.1 ∧
    (getUsage db s' m').2.2.1 ≤ (getUsage (record_usage subkey model a b c d db) s' m').2.2.1 ∧
    (getUsage db s' m').2.2.2 ≤ (getUsage (record_usage subkey model a b c d db) s' m').2.2.2 := by
  by_cases h : subkey = s' ∧ model = m'
  · rcases h with ⟨h1, h2⟩
    subst h1
    subst h2
    rw [getUsage_record_same]
    refine ⟨?_, ?_, ?_, ?_⟩ <;> simp [le_max_iff]
  · rw [getUsage_record_other subkey model s' m' a b c d db h]
    exact ⟨le_refl _, le_refl _, le_refl _, le_refl _⟩

theorem getUsage_recordN (subkey model : String) (n : Nat) (db : UsageDb) :
    (getUsage (recordN subkey model n db) subkey model).1 =
      (getUsage db subkey model).1 + n := by
  induction n generalizing db with
  | zero => simp [recordN]
  | succ k ih =>
    rw [recordN, ih, getUsage_record_same]
    simp only [Nat.cast_add, Nat.cast_one]
    omega

/-! ## Claim C4 — `is_request_allowed` -/

/-- C4: `is_request_allowed` returns true when the effective limits (the
wildcard `*` entry overridden key-by-key by the model-specific entry) carry
no requests limit; otherwise it is true iff the accumulated requests counter
is strictly below the limit; a model-specific requests limit of `0` always
yields false (counters being non-negative); and a model with no specific
entry falls back to the wildcard entry. -/
theorem is_request_allowed_spec (quotas : Quotas) (db : UsageDb) (subkey model : String)
    (hdb : dbNonneg db) :
    (limVal (getLimits quotas subkey model).requests = none →
      is_request_allowed quotas db subkey model = true)
    ∧ (∀ L, limVal (getLimits quotas subkey model).requests = some L →
        (is_request_allowed quotas db subkey model = true ↔ (getUsage db subkey model).1 < L))
    ∧ (((((quotas.lookup subkey).getD []).lookup model).getD {}).requests = some (some 0) →
        is_request_allowed quotas db subkey model = false)
    ∧ (((quotas.lookup subkey).getD []).lookup model = none →
        getLimits quotas subkey model = (((quotas.lookup subkey).getD []).lookup "*").getD {}) := by
  refine ⟨?_, ?_, ?_, ?_⟩
  · intro h
    simp [is_request_allowed, h]
  · intro L h
    simp [is_request_allowed, h]
  · intro h
    have hreq : (getLimits quotas subkey model).requests = some (some 0) := by
      simp [getLimits, h]
    have hnn := (getUsage_nonneg db hdb subkey model).1
    simp only [is_request_allowed, hreq, limVal]
    simp only [decide_eq_false_iff_not, not_lt]
    exact hnn
  · intro h
    simp [getLimits, h]

/-- A quota policy exercising every branch of C4: wildcard limit 100 and a
model-specific deny rule. -/
def quotasC4 : Quotas :=
  [("k", [("*", { requests := some (some 100) }), ("m0", { requests := some (some 0) })])]

/-- Witness for C4 at a concrete policy: the `m0` deny rule beats the
wildcard, while an unlisted model uses the wildcard limit. -/
theorem is_request_allowed_spec_witness :
    is_request_allowed quotasC4 [] "k" "m0" = false ∧
    is_request_allowed quotasC4 [] "k" "other" = true := by
  constructor
  · exact (is_request_allowed_spec quotasC4 [] "k" "m0"
      (by intro r hr; cases hr)).2.2.1 (by rfl)
  · exact ((is_request_allowed_spec quotasC4 [] "k" "other"
      (by intro r hr; cases hr)).2.1 100 (by rfl)).mpr (by decide)

/-! ## Claim C5 — `record_usage` -/

/-- C5: every `record_usage` clamps its four deltas to be non-negative and
applies them as one upsert on the unique `(subkey, model)` row: primary-key
uniqueness is preserved, every stored counter is ≥ its previous value, the
updated row carries exactly the clamped increments, and `n` sequential calls
with a request delta of 1 accumulate exactly `n` requests. -/
theorem record_usage_spec (subkey model : String) (a b c d : Int) (db : UsageDb) :
    (keyNodup db → keyNodup (record_usage subkey model a b c d db))
    ∧ (∀ s' m',
        (getUsage db s' m').1 ≤ (getUsage (record_usage subkey model a b c d db) s' m').1 ∧
        (getUsage db s' m').2.1 ≤ (getUsage (record_usage subkey model a b c d db) s' m').2.1 ∧
        (getUsage db s' m').2.2.1 ≤ (getUsage (record_usage subkey model a b c d db) s' m').2.2.1 ∧
        (getUsage db s' m').2.2.2 ≤ (getUsage (record_usage subkey model a b c d db) s' m').2.2.2)
    ∧ (getUsage (record_usage subkey model a b c d db) subkey model =
        ((getUsage db subkey model).1 + max 0 a,
         (getUsage db subkey model).2.1 + max 0 b,
         (getUsage db subkey model).2.2.1 + max 0 c,
         (getUsage db subkey model).2.2.2 + max 0 d))
    ∧ (∀ n : Nat, (getUsage (recordN subkey model n db) subkey model).1 =
        (getUsage db subkey model).1 + n) :=
  ⟨keyNodup_record_usage subkey model a b c d db,
   getUsage_record_mono subkey model a b c d db,
   getUsage_record_same subkey model a b c d db,
   fun n => getUsage_recordN subkey model n db⟩

/-- Witness for C5: a negative prompt delta is clamped to zero, the fresh
row is unique, and five sequential request increments accumulate to five. -/
theorem record_usage_spec_witness :
    keyNodup (record_usage "k" "m" 1 (-7) 2 3 []) ∧
    getUsage (record_usage "k" "m" 1 (-7) 2 3 []) "k" "m" = (1, 0, 2, 3) ∧
    (getUsage (recordN "k" "m" 5 []) "k" "m").1 = 5 := by
  have h := record_usage_spec "k" "m" 1 (-7) 2 3 []
  refine ⟨h.1 (by simp [keyNodup]), ?_, ?_⟩
  · rw [h.2.2.1]
    rfl
  · have h5 := h.2.2.2 5
    simpa using h5

/-! ## Claim C6 — `will_exceed_tokens` -/

/-- A policy with a `total_tokens` limit of 10 on model `m`. -/
def quotasC6 : Quotas := [("k", [("m", { total_tokens := some (some 10) })])]

/-- A quota table with accumulated `total_tokens = 11` for `("k", "m")` —
reachable, since `record_usage` never consults limits. -/
def dbC6ce : UsageDb := record_usage "k" "m" 1 0 0 11 []

/-- C6 counterexample: with configured limit `T = 10`, accumulated total
`U = 11` and incoming `x = -5`, the source's clamped check returns true
although `U + x > T` is false — the claim's unqualified `for all x it is
true iff U + x > T` fails for negative `x`. -/
theorem will_exceed_tokens_counterexample :
    (getUsage dbC6ce "k" "m").2.2.2 = 11 ∧
    limVal (getLimits quotasC6 "k" "m").total_tokens = some 10 ∧
    will_exceed_tokens quotasC6 dbC6ce "k" "m" (-5) = true ∧
    ¬((11 : Int) + (-5) > 10) :=
  ⟨by decide, by rfl, by decide, by decide⟩

/-- C6 (amended): `will_exceed_tokens` is true iff a `total_tokens` limit is
configured and `U + max(0, x) > T`; the unclamped equivalence `U + x > T`
holds for all non-negative `x`. -/
theorem will_exceed_tokens_spec (quotas : Quotas) (db : UsageDb) (subkey model : String)
    (x : Int) :
    (limVal (getLimits quotas subkey model).total_tokens = none →
      will_exceed_tokens quotas db subkey model x = false)
    ∧ (∀ T, limVal (getLimits quotas subkey model).total_tokens = some T →
        (will_exceed_tokens quotas db subkey model x = true ↔
          (getUsage db subkey model).2.2.2 + max 0 x > T))
    ∧ (∀ T, limVal (getLimits quotas subkey model).total_tokens = some T → 0 ≤ x →
        (will_exceed_tokens quotas db subkey model x = true ↔
          (getUsage db subkey model).2.2.2 + x > T)) := by
  refine ⟨fun h => by simp [will_exceed_tokens, h],
    fun T h => by simp [will_exceed_tokens, h],
    fun T h hx => ?_⟩
  simp [will_exceed_tokens, h, max_eq_right hx]

/-- A quota table with accumulated `total_tokens = 6` for `("k", "m")`. -/
def dbC6w : UsageDb := record_usage "k" "m" 1 0 0 6 []

/-- Witness for C6 (amended) at `T = 10`, `U = 6`: an incoming total of 5
would exceed, an incoming total of 4 would not. -/
theorem will_exceed_tokens_spec_witness :
    will_exceed_tokens quotasC6 dbC6w "k" "m" 5 = true ∧
    will_exceed_tokens quotasC6 dbC6w "k" "m" 4 = false := by
  constructor
  · exact ((will_exceed_tokens_spec quotasC6 dbC6w "k" "m" 5).2.2 10 (by rfl)
      (by decide)).mpr (by decide)
  · cases hb : will_exceed_tokens quotasC6 dbC6w "k" "m" 4
    · rfl
    · exact absurd (((will_exceed_tokens_spec quotasC6 dbC6w "k" "m" 4).2.2 10 (by rfl)
        (by decide)).mp hb) (by decide)

/-! ## Claims C8–C10 — `get_access_token` -/

/-- C8: with a cached non-empty token and `now < expires_at - 60` the call
returns the cached token with no network I/O and the cache unchanged;
otherwise a successful client-credentials grant unconditionally overwrites
the cache with the returned token and `now + expires_in`, `expires_in`
defaulting to 3600 when absent from the response. -/
theorem get_access_token_cache_spec (now : Int) (client_id client_secret : String)
    (grant : Option TokenGrant) (cache : TokenCache) :
    (∀ t, cache.access_token = some t → t ≠ "" → now < cache.expires_at - 60 →
      get_access_token now client_id client_secret grant cache = ⟨.ok t, cache, false⟩)
    ∧ (∀ g tok, ¬(pytruthy cache.access_token = true ∧ now < cache.expires_at - 60) →
        client_id ≠ "" → client_secret ≠ "" → grant = some g → g.status = 200 →
        g.access_token = some tok →
        get_access_token now client_id client_secret grant cache =
          ⟨.ok tok, ⟨some tok, now + g.expires_in.getD 3600⟩, true⟩)
    ∧ (∀ g tok, ¬(pytruthy cache.access_token = true ∧ now < cache.expires_at - 60) →
        client_id ≠ "" → client_secret ≠ "" → grant = some g → g.status = 200 →
        g.access_token = some tok → g.expires_in = none →
        get_access_token now client_id client_secret grant cache =
          ⟨.ok tok, ⟨some tok, now + 3600⟩, true⟩) := by
  have hmissfalse : ∀ (p : ¬(pytruthy cache.access_token = true ∧ now < cache.expires_at - 60)),
      (pytruthy cache.access_token && decide (now < cache.expires_at - 60)) = false := by
    intro p
    rcases Bool.eq_false_or_eq_true (pytruthy cache.access_token) with hb | hb
    · simp only [hb, Bool.true_and, decide_eq_false_iff_not]
      exact fun hlt => p ⟨hb, hlt⟩
    · simp [hb]
  refine ⟨?_, ?_, ?_⟩
  · intro t ht hne hlt
    simp [get_access_token, ht, pytruthy, hne, hlt]
  · intro g tok hmiss h1 h2 hg hst htok
    simp [get_access_token, hmissfalse hmiss, h1, h2, hg, hst, htok]
  · intro g tok hmiss h1 h2 hg hst htok hnone
    simp [get_access_token, hmissfalse hmiss, h1, h2, hg, hst, htok, hnone]

/-- Witness for C8: a fresh cache hit, and a cache miss refreshed by a
successful grant with and without an `expires_in` field. -/
theorem get_access_token_cache_spec_witness :
    get_access_token 0 "id" "sec" none ⟨some "tok", 1000⟩ =
      ⟨.ok "tok", ⟨some "tok", 1000⟩, false⟩ ∧
    get_access_token 0 "id" "sec" (some ⟨200, "b", some "newtok", some 120⟩) ⟨none, 0⟩ =
      ⟨.ok "newtok", ⟨some "newtok", 120⟩, true⟩ ∧
    get_access_token 0 "id" "sec" (some ⟨200, "b", some "newtok", none⟩) ⟨none, 0⟩ =
      ⟨.ok "newtok", ⟨some "newtok", 3600⟩, true⟩ := by
  refine ⟨?_, ?_, ?_⟩
  · exact (get_access_token_cache_spec 0 "id" "sec" none ⟨some "tok", 1000⟩).1 "tok"
      rfl (by decide) (by decide)
  · exact (get_access_token_cache_spec 0 "id" "sec" (some ⟨200, "b", some "newtok", some 120⟩)
      ⟨none, 0⟩).2.1 ⟨200, "b", some "newtok", some 120⟩ "newtok"
      (by simp [pytruthy]) (by decide) (by decide) rfl rfl rfl
  · exact (get_access_token_cache_spec 0 "id" "sec" (some ⟨200, "b", some "newtok", none⟩)
      ⟨none, 0⟩).2.2 ⟨200, "b", some "newtok", none⟩ "newtok"
      (by simp [pytruthy]) (by decide) (by decide) rfl rfl rfl rfl

/-- C9: on a cache miss with credentials present, a non-200 token-endpoint
status fails with the 502 error carrying the response body and leaves the
cache unchanged; empty credentials fail with the configuration error before
any network call, also leaving the cache unchanged. -/
theorem get_access_token_error_spec (now : Int) (client_id client_secret : String)
    (grant : Option TokenGrant) (cache : TokenCache) :
    (∀ g, ¬(pytruthy cache.access_token = true ∧ now < cache.expires_at - 60) →
        client_id ≠ "" → client_secret ≠ "" → grant = some g → g.status ≠ 200 →
        get_access_token now client_id client_secret grant cache =
          ⟨.error (.statusError g.body), cache, true⟩)
    ∧ (¬(pytruthy cache.access_token = true ∧ now < cache.expires_at - 60) →
        (client_id = "" ∨ client_secret = "") →
        (get_access_token now client_id client_secret grant cache).networkCalled = false ∧
        (get_access_token now client_id client_secret grant cache).cache = cache ∧
        ∃ ms, ms ≠ [] ∧ (get_access_token now client_id client_secret grant cache).result =
          .error (.configError ms)) := by
  have hmissfalse : ∀ (p : ¬(pytruthy cache.access_token = true ∧ now < cache.expires_at - 60)),
      (pytruthy cache.access_token && decide (now < cache.expires_at - 60)) = false := by
    intro p
    rcases Bool.eq_false_or_eq_true (pytruthy cache.access_token) with hb | hb
    · simp only [hb, Bool.true_and, decide_eq_false_iff_not]
      exact fun hlt => p ⟨hb, hlt⟩
    · simp [hb]
  constructor
  · intro g hmiss h1 h2 hg hst
    simp [get_access_token, hmissfalse hmiss, h1, h2, hg, hst]
  · intro hmiss hd
    by_cases hci : client_id = "" <;> by_cases hcs : client_secret = ""
    · exact ⟨by simp [get_access_token, hmissfalse hmiss, hci, hcs],
        by simp [get_access_token, hmissfalse hmiss, hci, hcs],
        ["CIRCUIT_CLIENT_ID", "CIRCUIT_CLIENT_SECRET"], by simp,
        by simp [get_access_token, hmissfalse hmiss, hci, hcs]⟩
    · exact ⟨by simp [get_access_token, hmissfalse hmiss, hci, hcs],
        by simp [get_access_token, hmissfalse hmiss, hci, hcs],
        ["CIRCUIT_CLIENT_ID"], by simp,
        by simp [get_access_token, hmissfalse hmiss, hci, hcs]⟩
    · exact ⟨by simp [get_access_token, hmissfalse hmiss, hci, hcs],
        by simp [get_access_token, hmissfalse hmiss, hci, hcs],
        ["CIRCUIT_CLIENT_SECRET"], by simp,
        by simp [get_access_token, hmissfalse hmiss, hci, hcs]⟩
    · rcases hd with h | h
      · exact absurd h hci
      · exact absurd h hcs

/-- Witness for C9: a 401 from the token endpoint surfaces its body; empty
client id fails before any network call. -/
theorem get_access_token_error_spec_witness :
    get_access_token 0 "id" "sec" (some ⟨401, "denied", none, none⟩) ⟨none, 0⟩ =
      ⟨.error (.statusError "denied"), ⟨none, 0⟩, true⟩ ∧
    (get_access_token 0 "" "sec" none ⟨none, 0⟩).networkCalled = false := by
  constructor
  · exact (get_access_token_error_spec 0 "id" "sec" (some ⟨401, "denied", none, none⟩)
      ⟨none, 0⟩).1 ⟨401, "denied", none, none⟩ (by simp [pytruthy]) (by decide) (by decide)
      rfl (by decide)
  · exact ((get_access_token_error_spec 0 "" "sec" none ⟨none, 0⟩).2
      (by simp [pytruthy]) (Or.inl rfl)).1

/-- C10: a valid cache hit short-circuits before credential validation —
even with both credentials empty the cached token is returned, and the
missing-credentials configuration error can only arise on the cache-miss
path. -/
theorem cache_hit_skips_credential_check (now : Int) (grant : Option TokenGrant)
    (cache : TokenCache) (t : String) :
    (cache.access_token = some t → t ≠ "" → now < cache.expires_at - 60 →
      get_access_token now "" "" grant cache = ⟨.ok t, cache, false⟩)
    ∧ (∀ client_id client_secret ms,
        (get_access_token now client_id client_secret grant cache).result =
          .error (.configError ms) →
        ¬(pytruthy cache.access_token = true ∧ now < cache.expires_at - 60)) := by
  constructor
  · intro ht hne hlt
    simp [get_access_token, ht, pytruthy, hne, hlt]
  · rintro client_id client_secret ms hres ⟨hb, hlt⟩
    simp [get_access_token, hb, hlt] at hres

/-- Witness for C10: empty credentials, valid cached token — the cached
token is still returned with no error. -/
theorem cache_hit_skips_credential_check_witness :
    get_access_token 0 "" "" none ⟨some "tok", 1000⟩ =
      ⟨.ok "tok", ⟨some "tok", 1000⟩, false⟩ :=
  (cache_hit_skips_credential_check 0 none ⟨some "tok", 1000⟩ "tok").1 rfl
    (by decide) (by decide)

/-! ## Supporting lemmas about the stream relay -/

theorem append_newline_ne_empty (l : String) : (l ++ "\n") ≠ "" := by
  intro h
  have hlen := congrArg String.length h
  rw [String.length_append] at hlen
  have h1 : ("\n" : String).length = 1 := rfl
  have h0 : ("" : String).length = 0 := rfl
  omega

/-- A capture attempt either succeeds with a value independent of the
current state, or returns the current state unchanged. -/
theorem extractUsageSSE_none (j : JValue) (u : Option Usage) :
    extractUsageSSE j u = match extractUsageSSE j none with
      | some v => some v
      | none => u := by
  cases j <;> try rfl
  case obj fields =>
    show extractUsageSSE (.obj fields) u = _
    unfold extractUsageSSE
    rcases hl : jlookup fields "usage" with _ | jv
    · simp [hl]
    · cases jv <;> (simp only [hl]; try rfl)
      case obj ufields =>
        rcases hp : pyInt ((jlookup ufields "prompt_tokens").getD (.num 0)) with _ | p <;>
          rcases hc : pyInt ((jlookup ufields "completion_tokens").getD (.num 0)) with _ | c <;>
          rcases ht : pyInt ((jlookup ufields "total_tokens").getD (.num 0)) with _ | t <;>
          simp [hp, hc, ht]

/-- One relay step either captures a value independent of the current state,
or keeps the current state. -/
theorem sseStep_none (parse : String → Option JValue) (u : Option Usage) (line : String) :
    sseStep parse u line = match sseStep parse none line with
      | some v => some v
      | none => u := by
  unfold sseStep
  by_cases h1 : pyStartsWith line "data: " = true
  · by_cases h2 : pyStrip (pyDrop line 6) = "[DONE]"
    · simp [h1, h2]
    · cases hp : parse (pyDrop line 6) with
      | none => simp [h1, h2, hp]
      | some j => simp [h1, h2, hp, extractUsageSSE_none j u]
  · simp [h1]

/-- A line whose capture succeeds from a blank state overrides any current
state: later usage occurrences overwrite earlier ones. -/
theorem sseStep_override (parse : String → Option JValue) (line : String) (w : Usage)
    (h : sseStep parse none line = some w) (u : Option Usage) :
    sseStep parse u line = some w := by
  rw [sseStep_none, h]

/-- A captured value is never dropped by later lines. -/
theorem sseStep_isSome (parse : String → Option JValue) (u : Option Usage) (line : String)
    (h : u.isSome = true) : (sseStep parse u line).isSome = true := by
  rw [sseStep_none]
  cases hs : sseStep parse none line with
  | none => exact h
  | some v => rfl

theorem sseFinal_isSome (parse : String → Option JValue) (lines : List String)
    (u : Option Usage) (h : u.isSome = true) :
    (sseFinal parse lines u).isSome = true := by
  induction lines generalizing u with
  | nil => exact h
  | cons line rest ih =>
    rw [sseFinal]
    exact ih (sseStep parse u line) (sseStep_isSome parse u line h)

/-- The `collected_usage` fold over the relayed pairs computes the final
capture state, for any fold accumulator. -/
theorem collect_aux (parse : String → Option JValue) (lines : List String)
    (u0 acc : Option Usage) :
    (parse_sse_stream parse lines u0).foldl
        (fun acc p => match p.2 with | some w => some w | none => acc) acc =
      match sseFinal parse lines u0 with
      | some w => some w
      | none => acc := by
  induction lines generalizing u0 acc with
  | nil =>
    cases u0 <;> simp [parse_sse_stream, sseFinal]
  | cons line rest ih =>
    by_cases h1 : pyStartsWith line "data: " = true
    · by_cases h2 : pyStrip (pyDrop line 6) = "[DONE]"
      · have hfinal : sseFinal parse (line :: rest) u0 = sseFinal parse rest u0 := by
          rw [sseFinal]
          simp [sseStep, h1, h2]
        rw [hfinal]
        simp only [parse_sse_stream, h1, h2, if_true, List.foldl_cons]
        rcases hu : u0 with _ | w
        · rw [ih]
        · have hs := sseFinal_isSome parse rest (some w) (by simp)
          rcases hfs : sseFinal parse rest (some w) with _ | v
          · rw [hfs] at hs
            simp at hs
          · simp only [ih, hfs]
      · have hfinal : sseFinal parse (line :: rest) u0 =
            sseFinal parse rest (sseStep parse u0 line) := by
          rw [sseFinal]
        rw [hfinal]
        simp only [parse_sse_stream, h1, h2, if_true, if_false, List.foldl_cons]
        rw [ih]
    · have hfinal : sseFinal parse (line :: rest) u0 = sseFinal parse rest u0 := by
        rw [sseFinal]
        simp [sseStep, h1]
      rw [hfinal]
      simp [parse_sse_stream, h1, ih]

/-- `collected_usage` after the whole stream equals the final capture state. -/
theorem collectUsage_parse_sse (parse : String → Option JValue) (lines : List String) :
    collectUsage (parse_sse_stream parse lines none) = sseFinal parse lines none := by
  rw [collectUsage, collect_aux]
  cases sseFinal parse lines none <;> rfl

/-- Every input line is forwarded verbatim (with its newline restored), in
order; the only non-line chunk ever yielded is the empty final sentinel. -/
theorem parse_sse_stream_forwards (parse : String → Option JValue) (lines : List String)
    (u : Option Usage) :
    ((parse_sse_stream parse lines u).map Prod.fst).filter (fun c => c != "") =
      lines.map (fun l => l ++ "\n") := by
  induction lines generalizing u with
  | nil => cases u <;> simp [parse_sse_stream]
  | cons line rest ih =>
    have hne : (line ++ "\n") ≠ "" := append_newline_ne_empty line
    by_cases h1 : pyStartsWith line "data: " = true
    · by_cases h2 : pyStrip (pyDrop line 6) = "[DONE]"
      · simp [parse_sse_stream, h1, h2, hne, ih]
      · simp [parse_sse_stream, h1, h2, hne, ih]
    · simp [parse_sse_stream, h1, hne, ih]

/-! ## Claim C7 — the stream relay -/

/-- C7: the relay forwards every upstream line (blank and non-data lines
included) verbatim and in order; a data line whose JSON fails to parse is
still forwarded with the capture state untouched; and a data line whose
usage extraction succeeds overwrites whatever was captured before it. -/
theorem parse_sse_stream_spec (parse : String → Option JValue) :
    (∀ lines u0,
      ((parse_sse_stream parse lines u0).map Prod.fst).filter (fun c => c != "") =
        lines.map (fun l => l ++ "\n"))
    ∧ (∀ line rest u0, pyStartsWith line "data: " = true → pyStrip (pyDrop line 6) ≠ "[DONE]" →
        parse (pyDrop line 6) = none →
        parse_sse_stream parse (line :: rest) u0 =
          (line ++ "\n", none) :: parse_sse_stream parse rest u0)
    ∧ (∀ pre line w u0, sseStep parse none line = some w →
        sseFinal parse (pre ++ [line]) u0 = some w) := by
  refine ⟨fun lines u0 => parse_sse_stream_forwards parse lines u0, ?_, ?_⟩
  · intro line rest u0 h1 h2 hp
    have hkeep : sseStep parse u0 line = u0 := by
      simp [sseStep, h1, h2, hp]
    simp [parse_sse_stream, h1, h2, hkeep]
  · intro pre line w u0 hline
    induction pre generalizing u0 with
    | nil =>
      simp only [List.nil_append, sseFinal]
      rw [sseStep_override parse line w hline u0]
    | cons x xs ih =>
      simp only [List.cons_append, sseFinal]
      exact ih (sseStep parse u0 x)

/-- A concrete `json.loads` oracle: only the payload `"U"` parses, to a chunk
carrying a usage object. -/
def pwC7 : String → Option JValue := fun s =>
  if s = "U" then
    some (.obj [("usage", .obj [("prompt_tokens", .num 2), ("completion_tokens", .num 3),
      ("total_tokens", .num 5)])])
  else none

/-- Witness for C7: a usage chunk, a malformed data line, a blank line and
the terminal marker are all forwarded verbatim; the malformed line leaves
the capture unchanged; a trailing usage chunk overwrites an earlier capture. -/
theorem parse_sse_stream_spec_witness :
    ((parse_sse_stream pwC7 ["data: U", "data: garbage", "", "data: [DONE]"] none).map
        Prod.fst).filter (fun c => c != "") =
      ["data: U\n", "data: garbage\n", "\n", "data: [DONE]\n"] ∧
    parse_sse_stream pwC7 ["data: garbage"] none =
      ("data: garbage\n", none) :: parse_sse_stream pwC7 [] none ∧
    sseFinal pwC7 (["data: garbage"] ++ ["data: U"]) none = some ⟨2, 3, 5⟩ := by
  refine ⟨?_, ?_, ?_⟩
  · exact ((parse_sse_stream_spec pwC7).1 ["data: U", "data: garbage", "", "data: [DONE]"]
      none).trans (by rfl)
  · exact (parse_sse_stream_spec pwC7).2.1 "data: garbage" [] none (by rfl) (by decide)
      (by rfl)
  · exact (parse_sse_stream_spec pwC7).2.2 ["data: garbage"] "data: U" ⟨2, 3, 5⟩ none (by rfl)

/-! ## Claim C2 — recording after the stream drains -/

/-- C2 counterexample: a drained stream that never presented usage data,
with the caller identity present and the quota store active — the pipeline
issues no `record_usage` call at all, so no request is counted, contradicting
the claim that it records zeros and still counts one request. -/
theorem stream_recording_skipped_counterexample :
    (stream_with_usage_tracking (fun _ => none) (some "k") true "m"
      ["data: [DONE]"] []).2.1 = [] ∧
    ¬(stream_with_usage_tracking (fun _ => none) (some "k") true "m"
      ["data: [DONE]"] []).2.1.length = 1 := by
  have hnil : (stream_with_usage_tracking (fun _ => none) (some "k") true "m"
      ["data: [DONE]"] []).2.1 = ([] : List RecordCall) := rfl
  refine ⟨hnil, ?_⟩
  rw [hnil]
  decide

/-- C2 (amended): after the stream fully drains with a caller identity
present and the quota store active, the pipeline records exactly one request
together with the usage totals captured from the stream when the stream
presented usage data; when the stream never presented usage data, the
recording is skipped entirely — no request is counted. -/
theorem stream_with_usage_tracking_spec (parse : String → Option JValue)
    (k : String) (hk : k ≠ "") (model : String) (lines : List String) (db : UsageDb) :
    (∀ u, sseFinal parse lines none = some u →
      stream_with_usage_tracking parse (some k) true model lines db =
        (((parse_sse_stream parse lines none).map Prod.fst).filter (fun c => c != ""),
         [⟨k, model, 1, u.prompt_tokens, u.completion_tokens, u.total_tokens⟩],
         record_usage k model 1 u.prompt_tokens u.completion_tokens u.total_tokens db))
    ∧ (sseFinal parse lines none = none →
      stream_with_usage_tracking parse (some k) true model lines db =
        (((parse_sse_stream parse lines none).map Prod.fst).filter (fun c => c != ""),
         [], db)) := by
  have hcol := collectUsage_parse_sse parse lines
  constructor
  · intro u hu
    rw [hu] at hcol
    simp [stream_with_usage_tracking, hcol, pytruthy, hk]
  · intro hu
    rw [hu] at hcol
    simp [stream_with_usage_tracking, hcol]

/-- Witness for C2 (amended): a stream carrying usage `(2, 3, 5)` records
exactly one request with those totals. -/
theorem stream_with_usage_tracking_spec_witness :
    stream_with_usage_tracking pwC7 (some "k") true "m" ["data: U", "data: [DONE]"] [] =
      (["data: U\n", "data: [DONE]\n"],
       [⟨"k", "m", 1, 2, 3, 5⟩],
       record_usage "k" "m" 1 2 3 5 []) := by
  exact ((stream_with_usage_tracking_spec pwC7 "k" (by decide) "m"
    ["data: U", "data: [DONE]"] []).1 ⟨2, 3, 5⟩ (by rfl)).trans (by rfl)

/-! ## Supporting lemmas about the pipeline -/

/-- The chunks relayed to the client are exactly the upstream lines with
newlines restored, whatever the usage capture and recording do. -/
theorem stream_chunks_eq (parse : String → Option JValue) (caller : Option String)
    (qa : Bool) (model : String) (lines : List String) (db : UsageDb) :
    (stream_with_usage_tracking parse caller qa model lines db).1 =
      lines.map (fun l => l ++ "\n") := by
  rw [← parse_sse_stream_forwards parse lines none]
  unfold stream_with_usage_tracking
  cases hc : collectUsage (parse_sse_stream parse lines none) with
  | none => simp [hc]
  | some u => simp [hc, apply_ite]

theorem is_subkey_authorized_false_iff (q : Quotas)
    (lc : String → Option LifecycleStatus) (s : String) :
    is_subkey_authorized q lc s = false ↔
      (q.lookup s = none ∨ lc s = some .revoked ∨ lc s = some .replaced) := by
  unfold is_subkey_authorized
  rcases h : q.lookup s with _ | e
  · simp [h]
  · rcases hl : lc s with _ | st
    · simp [h, hl]
    · cases st <;> simp [h, hl]

/-! ## Claim C1 — the authorization gate -/

/-- C1: with a parsed body, a model, a caller identity present and the quota
store active, the pipeline consults the authorization check, and it responds
403 without any upstream dispatch exactly when the identity is unauthorized
(emitting the error telemetry event when the exporter is active); the
authorization check itself is false precisely when the subkey has no policy
entry or carries an explicit revoked/replaced lifecycle state — absence of a
lifecycle record defaults to active. -/
theorem auth_gate_spec (env : PipelineEnv)
    (hb : env.bodyParses = true) (hm : pytruthy env.model = true)
    (hs : pytruthy env.callerSubkey = true) (hq : env.quotaActive = true) :
    ((chat_completion env).authChecked = true)
    ∧ (((chat_completion env).status = 403 ∧ (chat_completion env).upstreamCalled = false) ↔
        is_subkey_authorized env.quotas env.lifecycle (env.callerSubkey.getD "") = false)
    ∧ (is_subkey_authorized env.quotas env.lifecycle (env.callerSubkey.getD "") = false →
        env.hecActive = true → (chat_completion env).errorEvents = ["unauthorized_subkey"])
    ∧ (∀ (q : Quotas) (lc : String → Option LifecycleStatus) (s : String),
        is_subkey_authorized q lc s = false ↔
          (q.lookup s = none ∨ lc s = some .revoked ∨ lc s = some .replaced)) := by
  by_cases hauth : is_subkey_authorized env.quotas env.lifecycle (env.callerSubkey.getD "") = false
  · have hres : chat_completion env =
        ⟨403, .error "Unauthorized: Subkey not recognized.", false, true, [], env.db,
         if env.hecActive then ["unauthorized_subkey"] else []⟩ := by
      simp [chat_completion, hb, hm, hs, hq, hauth]
    refine ⟨by rw [hres], ?_, ?_, is_subkey_authorized_false_iff⟩
    · rw [hres]
      exact ⟨fun _ => hauth, fun _ => ⟨rfl, rfl⟩⟩
    · intro _ hhec
      rw [hres]
      simp [hhec]
  · have hauth' : is_subkey_authorized env.quotas env.lifecycle
        (env.callerSubkey.getD "") = true := by
      rcases Bool.eq_false_or_eq_true
        (is_subkey_authorized env.quotas env.lifecycle (env.callerSubkey.getD "")) with h | h
      · exact h
      · exact absurd h hauth
    have hmain : (chat_completion env).authChecked = true ∧
        ¬((chat_completion env).status = 403 ∧ (chat_completion env).upstreamCalled = false) := by
      by_cases hra : is_request_allowed env.quotas env.db (env.callerSubkey.getD "")
          (env.model.getD "") = false
      · constructor <;> simp [chat_completion, hb, hm, hs, hq, hauth', hra]
      · by_cases htok : env.tokenOk = false
        · constructor <;> simp [chat_completion, hb, hm, hs, hq, hauth', hra, htok]
        · rcases henv : env.upstream with f | r
          · cases f <;>
              constructor <;> simp [chat_completion, hb, hm, hs, hq, hauth', hra, htok, henv]
          · by_cases hst : (strContains (pyLower r.contentType) "text/event-stream" = true ∨
                strContains (pyLower r.contentType) "stream" = true)
            · constructor <;>
                simp [chat_completion, hb, hm, hs, hq, hauth', hra, htok, henv, hst]
            · by_cases hrf : env.recordFails = true
              · constructor <;>
                  simp [chat_completion, hb, hm, hs, hq, hauth', hra, htok, henv, hst, hrf]
              · constructor <;>
                  simp [chat_completion, hb, hm, hs, hq, hauth', hra, htok, henv, hst, hrf]
    exact ⟨hmain.1, ⟨fun hc => (hmain.2 hc).elim, fun hf => (hauth hf).elim⟩,
      fun hf => (hauth hf).elim, is_subkey_authorized_false_iff⟩

/-- The concrete 200/JSON upstream response used by the pipeline witnesses. -/
def upstreamC3 : UpstreamResponse :=
  { status := 200, contentType := "application/json", content := "BODY", bodyJson := none,
    streamLines := [] }

/-- A request whose subkey has no entry in the quota policy. -/
def envC1 : PipelineEnv :=
  { bodyParses := true, model := some "m", callerSubkey := some "k", requireSubkey := true,
    quotaActive := true, hecActive := true, quotas := [], lifecycle := fun _ => none,
    db := [], tokenOk := true, upstream := .ok upstreamC3, sseParse := fun _ => none,
    recordFails := false, hecOutcome := .ok200 }

/-- Witness for C1: an unknown subkey is rejected with 403, no upstream
dispatch, and an unauthorized-subkey telemetry event. -/
theorem auth_gate_spec_witness :
    (chat_completion envC1).status = 403 ∧ (chat_completion envC1).upstreamCalled = false ∧
    (chat_completion envC1).errorEvents = ["unauthorized_subkey"] := by
  have h := auth_gate_spec envC1 rfl (by decide) (by decide) rfl
  exact ⟨(h.2.1.mpr rfl).1, (h.2.1.mpr rfl).2, h.2.2.1 rfl rfl⟩

/-! ## Claim C3 — verbatim relay and failure isolation -/

/-- An authorized request whose `record_usage` raises on the buffered path. -/
def envC3 : PipelineEnv :=
  { bodyParses := true, model := some "m", callerSubkey := some "k", requireSubkey := true,
    quotaActive := true, hecActive := false, quotas := [("k", [])],
    lifecycle := fun _ => none, db := [], tokenOk := true, upstream := .ok upstreamC3,
    sseParse := fun _ => none, recordFails := true, hecOutcome := .ok200 }

/-- The same request with a recording that succeeds. -/
def envC3w : PipelineEnv := { envC3 with recordFails := false }

/-- C3 counterexample: the upstream answers 200, but `record_usage` raising
on the buffered path lands in the generic exception handler and the client
receives 502 — a usage-recording failure does change the client-visible
status, unlike extraction and telemetry failures. -/
theorem verbatim_relay_counterexample :
    upstreamC3.status = 200 ∧ envC3.recordFails = true ∧
    (chat_completion envC3).status = 502 ∧ ¬(chat_completion envC3).status = 200 := by
  refine ⟨rfl, rfl, by decide, by decide⟩

/-- The pipeline environment with a different `r.json()` outcome and a
different telemetry outcome, all else equal. -/
def withJson (env : PipelineEnv) (r : UpstreamResponse) (j : Option JValue)
    (ho : HecOutcome) : PipelineEnv :=
  { env with upstream := UpstreamOutcome.ok { r with bodyJson := j }, hecOutcome := ho }

/-- C3 (amended): whenever the upstream call completes, the client receives
the upstream's status code and its body (buffered) or its stream (line by
line, verbatim), independent of the usage-extraction outcome (`bodyJson`)
and of the telemetry outcome — provided usage recording does not raise; a
recording failure on the buffered path surfaces as 502; every response
status is either the upstream's own or one of 400/401/403/429/502/504; and
`send_usage_event` is total, returning false on every failure path instead
of raising. -/
theorem verbatim_relay_spec (env : PipelineEnv) (r : UpstreamResponse)
    (hr : env.upstream = .ok r) (hcalled : (chat_completion env).upstreamCalled = true)
    (hrec : env.recordFails = false) :
    ((chat_completion env).status = r.status
      ∧ ((chat_completion env).body = .buffered r.content ∨
         (chat_completion env).body = .streamed (r.streamLines.map (fun l => l ++ "\n")))
      ∧ (∀ (j : Option JValue) (ho : HecOutcome),
          (chat_completion (withJson env r j ho)).status = (chat_completion env).status ∧
          (chat_completion (withJson env r j ho)).body = (chat_completion env).body))
    ∧ (∀ env2 : PipelineEnv,
        (∃ r2, env2.upstream = .ok r2 ∧ (chat_completion env2).status = r2.status) ∨
        (chat_completion env2).status = 400 ∨ (chat_completion env2).status = 401 ∨
        (chat_completion env2).status = 403 ∨ (chat_completion env2).status = 429 ∨
        (chat_completion env2).status = 502 ∨ (chat_completion env2).status = 504)
    ∧ (∀ (enabled : Bool) (outcome : HecOutcome), outcome ≠ .ok200 →
        send_usage_event enabled outcome = false) := by
  refine ⟨?_, ?_, ?_⟩
  · by_cases hb : env.bodyParses = false
    · exact absurd hcalled (by simp [chat_completion, hb])
    · by_cases hm : pytruthy env.model = false
      · exact absurd hcalled (by simp [chat_completion, hb, hm])
      · by_cases hreq : (env.requireSubkey = true ∧ pytruthy env.callerSubkey = false)
        · exact absurd hcalled (by simp [chat_completion, hb, hm, hreq])
        · by_cases h403 : ((pytruthy env.callerSubkey = true ∧ env.quotaActive = true) ∧
              is_subkey_authorized env.quotas env.lifecycle (env.callerSubkey.getD "") = false)
          · exact absurd hcalled (by simp [chat_completion, hb, hm, hreq, h403])
          · by_cases hra : ((pytruthy env.callerSubkey = true ∧ env.quotaActive = true) ∧
                is_request_allowed env.quotas env.db (env.callerSubkey.getD "")
                  (env.model.getD "") = false)
            · by_cases hax : is_subkey_authorized env.quotas env.lifecycle
                  (env.callerSubkey.getD "") = false
              · exact absurd hcalled (by simp [chat_completion, hb, hm, hreq, hax, hra])
              · exact absurd hcalled (by simp [chat_completion, hb, hm, hreq, hax, hra])
            · by_cases htok : env.tokenOk = false
              · exact absurd hcalled (by simp [chat_completion, hb, hm, hreq, h403, hra, htok])
              · by_cases hst : (strContains (pyLower r.contentType) "text/event-stream" = true ∨
                    strContains (pyLower r.contentType) "stream" = true)
                · refine ⟨?_, Or.inr ?_, ?_⟩
                  · simp [chat_completion, hb, hm, hreq, h403, hra, htok, hr, hst]
                  · simp [chat_completion, hb, hm, hreq, h403, hra, htok, hr, hst,
                      stream_chunks_eq]
                  · intro j ho
                    constructor <;>
                      simp [chat_completion, withJson, hb, hm, hreq, h403, hra, htok, hr, hst]
                · by_cases hid : (pytruthy env.callerSubkey = true ∧ env.quotaActive = true)
                  · have hauthT : ¬(is_subkey_authorized env.quotas env.lifecycle
                        (env.callerSubkey.getD "") = false) := fun hx => h403 ⟨hid, hx⟩
                    have hraT : ¬(is_request_allowed env.quotas env.db (env.callerSubkey.getD "")
                        (env.model.getD "") = false) := fun hx => hra ⟨hid, hx⟩
                    refine ⟨?_, Or.inl ?_, ?_⟩
                    · simp [chat_completion, hb, hm, hreq, hauthT, hraT, htok, hr, hst, hid, hrec]
                    · simp [chat_completion, hb, hm, hreq, hauthT, hraT, htok, hr, hst, hid, hrec]
                    · intro j ho
                      constructor <;>
                        simp [chat_completion, withJson, hb, hm, hreq, hauthT, hraT, htok, hr, hst,
                          hid, hrec]
                  · refine ⟨?_, Or.inl ?_, ?_⟩
                    · simp [chat_completion, hb, hm, hreq, h403, hra, htok, hr, hst, hid]
                    · simp [chat_completion, hb, hm, hreq, h403, hra, htok, hr, hst, hid]
                    · intro j ho
                      constructor <;>
                        simp [chat_completion, withJson, hb, hm, hreq, h403, hra, htok, hr, hst,
                          hid]
  · intro env2
    by_cases hb2 : env2.bodyParses = false
    · exact Or.inr (Or.inl (by simp [chat_completion, hb2]))
    · by_cases hm2 : pytruthy env2.model = false
      · exact Or.inr (Or.inl (by simp [chat_completion, hb2, hm2]))
      · by_cases hreq2 : (env2.requireSubkey = true ∧ pytruthy env2.callerSubkey = false)
        · exact Or.inr (Or.inr (Or.inl (by simp [chat_completion, hb2, hm2, hreq2])))
        · by_cases h403b : ((pytruthy env2.callerSubkey = true ∧ env2.quotaActive = true) ∧
              is_subkey_authorized env2.quotas env2.lifecycle
                (env2.callerSubkey.getD "") = false)
          · exact Or.inr (Or.inr (Or.inr (Or.inl
              (by simp [chat_completion, hb2, hm2, hreq2, h403b]))))
          · by_cases hra2 : ((pytruthy env2.callerSubkey = true ∧ env2.quotaActive = true) ∧
                is_request_allowed env2.quotas env2.db (env2.callerSubkey.getD "")
                  (env2.model.getD "") = false)
            · have hauthT2 : ¬(is_subkey_authorized env2.quotas env2.lifecycle
                  (env2.callerSubkey.getD "") = false) := fun hx => h403b ⟨hra2.1, hx⟩
              exact Or.inr (Or.inr (Or.inr (Or.inr (Or.inl
                (by simp [chat_completion, hb2, hm2, hreq2, hauthT2, hra2])))))
            · by_cases htok2 : env2.tokenOk = false
              · exact Or.inr (Or.inr (Or.inr (Or.inr (Or.inr (Or.inl
                  (by simp [chat_completion, hb2, hm2, hreq2, h403b, hra2, htok2]))))))
              · rcases henv2 : env2.upstream with f | r2
                · cases f with
                  | timeout =>
                    exact Or.inr (Or.inr (Or.inr (Or.inr (Or.inr (Or.inr
                      (by simp [chat_completion, hb2, hm2, hreq2, h403b, hra2, htok2, henv2]))))))
                  | transport =>
                    exact Or.inr (Or.inr (Or.inr (Or.inr (Or.inr (Or.inl
                      (by simp [chat_completion, hb2, hm2, hreq2, h403b, hra2, htok2, henv2]))))))
                · by_cases hst2 : (strContains (pyLower r2.contentType) "text/event-stream" = true ∨
                      strContains (pyLower r2.contentType) "stream" = true)
                  · exact Or.inl ⟨r2, rfl,
                      by simp [chat_completion, hb2, hm2, hreq2, h403b, hra2, htok2, henv2, hst2]⟩
                  · by_cases hid2 : (pytruthy env2.callerSubkey = true ∧ env2.quotaActive = true)
                    · have hauthT2 : ¬(is_subkey_authorized env2.quotas env2.lifecycle
                          (env2.callerSubkey.getD "") = false) := fun hx => h403b ⟨hid2, hx⟩
                      have hraT2 : ¬(is_request_allowed env2.quotas env2.db
                          (env2.callerSubkey.getD "") (env2.model.getD "") = false) :=
                        fun hx => hra2 ⟨hid2, hx⟩
                      by_cases hrf2 : env2.recordFails = true
                      · exact Or.inr (Or.inr (Or.inr (Or.inr (Or.inr (Or.inl
                          (by simp [chat_completion, hb2, hm2, hreq2, hauthT2, hraT2, htok2, henv2,
                            hst2, hid2, hrf2]))))))
                      · exact Or.inl ⟨r2, rfl,
                          by simp [chat_completion, hb2, hm2, hreq2, hauthT2, hraT2, htok2, henv2,
                            hst2, hid2, hrf2]⟩
                    · exact Or.inl ⟨r2, rfl,
                        by simp [chat_completion, hb2, hm2, hreq2, h403b, hra2, htok2, henv2,
                          hst2, hid2]⟩
  · intro enabled outcome hout
    cases outcome
    · exact absurd rfl hout
    all_goals cases enabled <;> rfl

/-- Witness for C3 (amended): a 200 buffered JSON response whose recording
succeeds reaches the client with the upstream's status and body. -/
theorem verbatim_relay_spec_witness :
    (chat_completion envC3w).status = upstreamC3.status ∧
    ((chat_completion envC3w).body = .buffered upstreamC3.content ∨
     (chat_completion envC3w).body =
       .streamed (upstreamC3.streamLines.map (fun l => l ++ "\n"))) := by
  have h := verbatim_relay_spec envC3w upstreamC3 rfl (by decide) rfl
  exact ⟨h.1.1, h.1.2.1⟩

end OaiBridge
